import Mathlib

/-!
# Verification of `trash_placement.py`

A shallow embedding of the debris-generation module `trash_placement.py`.
Python floats are modelled as real numbers, the lookup dictionaries as total
(or `Option`-valued, where the Python dict can raise `KeyError`) functions on
the enumeration types, and the two global random generators (`random` and
`np.random`) as two abstract streams of uniform draws in `[0,1)` together
with explicit cursor threading.  Fallible steps (`np.random.choice`
validation errors, a `KeyError` on a missing material table, and
non-termination of the unbounded rejection-sampling loop, modelled by fuel)
return `Except`.
-/

open scoped Classical

namespace TrashPlacement

/-- `class SizeClass(Enum)` of `trash_placement.py`. -/
inductive SizeClass
  | MICRO
  | MESO
  | MACRO
  | MEGA
deriving DecidableEq

/-- `class PlasticType(Enum)`: letter-coded debris categories. -/
inductive PlasticType
  | H
  | N
  | P
  | F
deriving DecidableEq

/-- The raw materials that appear in the material tables. -/
inductive Material
  | PE
  | PP
  | PS
  | PVC
deriving DecidableEq

/-- Iteration order of `for plastic_type in PlasticType` (Python enums iterate
in declaration order). -/
def allPlasticTypes : List PlasticType := [.H, .N, .P, .F]

def allSizeClasses : List SizeClass := [.MICRO, .MESO, .MACRO, .MEGA]

/-- `size_ranges`: per size class `(min, max)` in centimeters. -/
def size_ranges : SizeClass → ℚ × ℚ
  | .MICRO => (1/20, 1/2)
  | .MESO  => (1/2, 5)
  | .MACRO => (5, 50)
  | .MEGA  => (50, 200)

/-- `plastic_materials`: per (size class, type) the listed `(material, weight)`
pairs.  Combinations missing from the Python nested dict (MACRO/P, MEGA/P,
MEGA/F) are `none`; indexing them in Python would raise `KeyError`. -/
def plastic_materials : SizeClass → PlasticType → Option (List (Material × ℚ))
  | .MICRO, .H => some [(.PE, 95/100), (.PP, 5/100)]
  | .MICRO, .N => some [(.PE, 50/100), (.PP, 50/100)]
  | .MICRO, .P => some [(.PE, 1)]
  | .MICRO, .F => some [(.PE, 30/100), (.PS, 60/100)]
  | .MESO,  .H => some [(.PE, 75/100), (.PP, 25/100)]
  | .MESO,  .N => some [(.PE, 70/100), (.PP, 30/100)]
  | .MESO,  .P => some [(.PE, 1)]
  | .MESO,  .F => some [(.PE, 40/100), (.PP, 5/100), (.PS, 40/100), (.PVC, 10/100)]
  | .MACRO, .H => some [(.PE, 55/100), (.PP, 45/100)]
  | .MACRO, .N => some [(.PE, 65/100), (.PP, 35/100)]
  | .MACRO, .P => none
  | .MACRO, .F => some [(.PE, 50/100), (.PP, 5/100), (.PS, 15/100), (.PVC, 10/100)]
  | .MEGA,  .H => some [(.PE, 60/100), (.PP, 40/100)]
  | .MEGA,  .N => some [(.PE, 80/100), (.PP, 10/100)]
  | .MEGA,  .P => none
  | .MEGA,  .F => none

/-- `material_densities` in kg/m³. -/
def material_densities : Material → ℚ
  | .PE  => 920
  | .PP  => 9005/10
  | .PS  => 1005
  | .PVC => 1005

/-- `mean_plastic_concentration`: per (size class, type) the pair
(mass concentration kg/km², number concentration count/km²). -/
def mean_plastic_concentration : SizeClass → PlasticType → ℚ × ℚ
  | .MICRO, .H => (233/100, 643930)
  | .MICRO, .N => (41/1000, 19873)
  | .MICRO, .P => (13/100, 14362)
  | .MICRO, .F => (1/1000, 216)
  | .MESO,  .H => (368/100, 20993)
  | .MESO,  .N => (23/100, 803)
  | .MESO,  .P => (3/10000, 36/10)
  | .MESO,  .F => (3/1000, 12)
  | .MACRO, .H => (1553/100, 640)
  | .MACRO, .N => (127/100, 49)
  | .MACRO, .P => (0, 0)
  | .MACRO, .F => (21/1000, 7/10)
  | .MEGA,  .H => (352/100, 3/10)
  | .MEGA,  .N => (4282/100, 33/10)
  | .MEGA,  .P => (0, 0)
  | .MEGA,  .F => (0, 0)

/-- `total_mean_plastic_concentration = (69.58, 700,886)`.  The source writes
the count with a thousands comma, so the Python literal is actually a triple
`(69.58, 700, 886)`; only index `[0]` is ever used. -/
def total_mean_plastic_concentration : ℚ × ℚ × ℚ := (6958/100, 700, 886)

/-- `default_mean_scale = 100 / total_mean_plastic_concentration[0]`. -/
def default_mean_scale : ℚ := 100 / total_mean_plastic_concentration.1

/-- `@dataclass class Trash`. -/
structure Trash where
  x : ℝ
  y : ℝ
  size : ℝ
  mass : ℝ
  density : ℝ
  size_class : SizeClass
  plastic_type : PlasticType

/-- The two global random generators: `pyr` models the stream of values
produced by Python's `random.random()`, `npr` the stream drawn from numpy's
global generator (used by `np.random.choice`).  Each entry is meant to lie in
`[0,1)`; `Valid` below states that. -/
structure RStream where
  pyr : ℕ → ℝ
  npr : ℕ → ℝ

/-- Cursors into the two streams. -/
structure RIx where
  p : ℕ
  n : ℕ
deriving DecidableEq

/-- All stream values lie in `[0,1)`, as the real generators guarantee. -/
def Valid (ρ : RStream) : Prop :=
  ∀ k, (0 ≤ ρ.pyr k ∧ ρ.pyr k < 1) ∧ (0 ≤ ρ.npr k ∧ ρ.npr k < 1)

def bumpP (ix : RIx) : RIx := ⟨ix.p + 1, ix.n⟩

def bumpN (ix : RIx) : RIx := ⟨ix.p, ix.n + 1⟩

/-- `random.uniform(a, b)`, which CPython computes as `a + (b-a)*random()`,
consuming one draw from the `random` stream. -/
def pyUniform (a b : ℝ) (ρ : RStream) (ix : RIx) : ℝ × RIx :=
  (a + (b - a) * ρ.pyr ix.p, bumpP ix)

/-- Failure modes of the generation code.  `probsNotOne` is numpy's
`ValueError: probabilities do not sum to 1`; `missingMaterials` is the
`KeyError` raised by indexing an absent entry of `plastic_materials`;
`badDraw` is an out-of-range categorical draw (unreachable for valid
streams); `outOfFuel` models non-termination of the unbounded
rejection-sampling `while` loop. -/
inductive GenErr
  | probsNotOne
  | missingMaterials
  | badDraw
  | outOfFuel
deriving DecidableEq

/-- `np.random.choice((x, y), p=(p, q))`: numpy first validates that the
probability vector sums to 1 and raises `ValueError` otherwise; on success it
returns the first option when the uniform draw falls below `p`.  One draw is
consumed from the numpy stream. -/
noncomputable def npChoice2 (x y : ℤ) (p q : ℝ) (ρ : RStream) (ix : RIx) :
    Except GenErr (ℤ × RIx) :=
  if p + q = 1 then .ok (if ρ.npr ix.n < p then x else y, bumpN ix)
  else .error .probsNotOne

/-- The count-rounding draw of `generate_trash` (line 199):
`np.random.choice((floor(n), ceil(n)), p=(1-(n-floor(n)), 1-(ceil(n)-n)))`. -/
noncomputable def stochRound (nT : ℝ) (ρ : RStream) (ix : RIx) :
    Except GenErr (ℤ × RIx) :=
  npChoice2 ⌊nT⌋ ⌈nT⌉ (1 - (nT - ⌊nT⌋)) (1 - ((⌈nT⌉ : ℝ) - nT)) ρ ix

/-- Categorical selection by cumulative weights, as numpy's `choice` does via
`searchsorted` on the cdf: pick the first item whose cumulative weight
strictly exceeds the uniform draw. -/
noncomputable def pickWeighted (u : ℝ) : List (Material × ℝ) → Option Material
  | [] => none
  | (m, w) :: rest => if u < w then some m else pickWeighted (u - w) rest

/-- Lines 211–219: collect the `(material, weight)` pairs of the bucket,
renormalize the weights to sum to 1, and draw with `np.random.choice`.
Indexing an absent `plastic_materials` entry raises `KeyError`. -/
noncomputable def drawMaterial (sc : SizeClass) (pt : PlasticType) (ρ : RStream)
    (ix : RIx) : Except GenErr (Material × RIx) :=
  match plastic_materials sc pt with
  | none => .error .missingMaterials
  | some ws =>
    match pickWeighted (ρ.npr ix.n)
        (ws.map (fun mw => (mw.1, (mw.2 : ℝ) / ((ws.map (fun v => v.2)).sum : ℚ)))) with
    | none => .error .badDraw
    | some m => .ok (m, bumpN ix)

/-- Lines 208–209: `size = 10 ** random.uniform(log10(min_cm), log10(max_cm))`
followed by `size /= 100`. -/
noncomputable def drawSize (sc : SizeClass) (ρ : RStream) (ix : RIx) : ℝ × RIx :=
  let r := size_ranges sc
  let u := pyUniform (Real.logb 10 (r.1 : ℝ)) (Real.logb 10 (r.2 : ℝ)) ρ ix
  ((10 : ℝ) ^ u.1 / 100, u.2)

/-- The strict-inequality test of the `while` loop on line 205: the candidate
lies strictly inside the boat rectangle on both axes. -/
def insideBoat (bp bb : ℝ × ℝ) (x y : ℝ) : Prop :=
  bp.1 - bb.1 / 2 < x ∧ x < bp.1 + bb.1 / 2 ∧ bp.2 - bb.2 / 2 < y ∧ y < bp.2 + bb.2 / 2

/-- Lines 203–206: draw a candidate position (two `random.uniform` calls) and
retry while it is strictly inside the boat box.  The Python loop is unbounded;
`fuel` bounds the number of attempts in the model, with exhaustion reported as
`outOfFuel`. -/
noncomputable def drawPos (bp bb : ℝ × ℝ) (xr yr : ℝ × ℝ) (ρ : RStream) :
    ℕ → RIx → Except GenErr ((ℝ × ℝ) × RIx)
  | 0, _ => .error .outOfFuel
  | fuel + 1, ix =>
    let px := pyUniform xr.1 xr.2 ρ ix
    let py := pyUniform yr.1 yr.2 ρ px.2
    if insideBoat bp bb px.1 py.1 then drawPos bp bb xr yr ρ fuel py.2
    else .ok ((px.1, py.1), py.2)

/-- Arguments of `generate_trash` other than the size-class list and the
`use_example` flag. -/
structure GenArgs where
  W : ℝ
  H : ℝ
  boat_pos : ℝ × ℝ
  boat_box : ℝ × ℝ
  centered : Bool
  mean_scale : ℝ

/-- Line 203: the sampling region, in corner-origin or centered frame. -/
noncomputable def posRange (args : GenArgs) : (ℝ × ℝ) × (ℝ × ℝ) :=
  if args.centered then ((-args.W / 2, args.W / 2), (-args.H / 2, args.H / 2))
  else ((0, args.W), (0, args.H))

/-- One iteration of the inner `for i in range(n_pieces)` loop: position,
size and material for one piece, built with `mass=0`. -/
noncomputable def drawPiece (args : GenArgs) (sc : SizeClass) (pt : PlasticType)
    (ρ : RStream) (fuel : ℕ) (ix : RIx) : Except GenErr (Trash × RIx) :=
  match drawPos args.boat_pos args.boat_box (posRange args).1 (posRange args).2 ρ fuel ix with
  | .error e => .error e
  | .ok (pos, ix₁) =>
    let s := drawSize sc ρ ix₁
    match drawMaterial sc pt ρ s.2 with
    | .error e => .error e
    | .ok (m, ix₃) =>
      .ok (⟨pos.1, pos.2, s.1, 0, (material_densities m : ℝ), sc, pt⟩, ix₃)

/-- The full inner loop: draw `k` pieces in order, also accumulating
`total_mass_proportion = Σ density * size**3` (line 222). -/
noncomputable def drawPieces (args : GenArgs) (sc : SizeClass) (pt : PlasticType)
    (ρ : RStream) (fuel : ℕ) : ℕ → RIx → Except GenErr (List Trash × ℝ × RIx)
  | 0, ix => .ok ([], 0, ix)
  | k + 1, ix =>
    match drawPiece args sc pt ρ fuel ix with
    | .error e => .error e
    | .ok (t, ix₁) =>
      match drawPieces args sc pt ρ fuel k ix₁ with
      | .error e => .error e
      | .ok (ts, w, ix₂) => .ok (t :: ts, t.density * t.size ^ 3 + w, ix₂)

/-- Overwrite the `mass` field (line 224 mutates `pieces[i].mass`). -/
def setMass (t : Trash) (m : ℝ) : Trash :=
  ⟨t.x, t.y, t.size, m, t.density, t.size_class, t.plastic_type⟩

/-- Overwrite the `density` field (line 188 of the example path). -/
def setDensity (t : Trash) (d : ℝ) : Trash :=
  ⟨t.x, t.y, t.size, t.mass, d, t.size_class, t.plastic_type⟩

/-- Line 196: `n_pieces = mean_scale * conc[1] * (W/1000)*(H/1000)` before
rounding. -/
noncomputable def nTarget (args : GenArgs) (sc : SizeClass) (pt : PlasticType) : ℝ :=
  args.mean_scale * ((mean_plastic_concentration sc pt).2 : ℝ) *
    (args.W / 1000) * (args.H / 1000)

/-- Line 195: `total_mass = mean_scale * conc[0] * (W/1000)*(H/1000)` before
rounding. -/
noncomputable def massTarget (args : GenArgs) (sc : SizeClass) (pt : PlasticType) : ℝ :=
  args.mean_scale * ((mean_plastic_concentration sc pt).1 : ℝ) *
    (args.W / 1000) * (args.H / 1000)

/-- Line 198: `avg_mass_per_piece = total_mass / n_pieces`. -/
noncomputable def avgMassPerPiece (args : GenArgs) (sc : SizeClass) (pt : PlasticType) : ℝ :=
  massTarget args sc pt / nTarget args sc pt

/-- Lines 195–224: one (size class, plastic type) bucket, operating on the
accumulated `pieces` list.  After appending the `n` freshly drawn pieces, the
second pass `for i in range(len(pieces) - n_pieces, len(pieces))` assigns
`mass = total_mass * (density * size**3) / total_mass_proportion` to exactly
the index window of the new pieces. -/
noncomputable def bucketStep (args : GenArgs) (ρ : RStream) (fuel : ℕ)
    (sc : SizeClass) (pt : PlasticType) (pieces : List Trash) (ix : RIx) :
    Except GenErr (List Trash × RIx) :=
  if nTarget args sc pt > 0 then
    match stochRound (nTarget args sc pt) ρ ix with
    | .error e => .error e
    | .ok (nz, ix₁) =>
      let n := nz.toNat
      match drawPieces args sc pt ρ fuel n ix₁ with
      | .error e => .error e
      | .ok (raws, wsum, ix₂) =>
        let ps := pieces ++ raws
        let total := avgMassPerPiece args sc pt * (n : ℝ)
        .ok (ps.mapIdx (fun i t =>
              if ps.length - n ≤ i then setMass t (total * (t.density * t.size ^ 3) / wsum)
              else t), ix₂)
  else .ok (pieces, ix)

/-- The nested `for size_class in relevant_size_classes: for plastic_type in
PlasticType:` loop, threading the shared `pieces` list and the stream
cursors. -/
noncomputable def genLoop (args : GenArgs) (ρ : RStream) (fuel : ℕ) :
    List (SizeClass × PlasticType) → List Trash → RIx → Except GenErr (List Trash × RIx)
  | [], pieces, ix => .ok (pieces, ix)
  | b :: rest, pieces, ix =>
    match bucketStep args ρ fuel b.1 b.2 pieces ix with
    | .error e => .error e
    | .ok (pieces₁, ix₁) => genLoop args ρ fuel rest pieces₁ ix₁

/-- The bucket iteration order of the nested loops. -/
def bucketList (classes : List SizeClass) : List (SizeClass × PlasticType) :=
  classes.flatMap (fun sc => allPlasticTypes.map (fun pt => (sc, pt)))

/-- Lines 162–166 of the example path: `avg_density[sc][pt] = Σ density(material)
* weight` over the bucket's listed materials (no renormalization). -/
noncomputable def avg_density (sc : SizeClass) (pt : PlasticType) : ℝ :=
  (((plastic_materials sc pt).getD []).map
    (fun mw => (material_densities mw.1 : ℝ) * (mw.2 : ℝ))).sum

/-- Lines 168–176: the seven hand-placed example pieces, constructed with
`mass=0, density=0`. -/
noncomputable def exampleProtos : List Trash :=
  [⟨100 + 0, 16, 3/4, 0, 0, .MEGA, .N⟩,
   ⟨100 + 10, 100, 3/4, 0, 0, .MEGA, .N⟩,
   ⟨100 - 10, 100, 3/4, 0, 0, .MEGA, .N⟩,
   ⟨100 + 15, 130, 1, 0, 0, .MEGA, .N⟩,
   ⟨100 - 12, 170, 3/4, 0, 0, .MEGA, .N⟩,
   ⟨100 + 15, 210, 5/2, 0, 0, .MEGA, .N⟩,
   ⟨100 + 0, 240, 1/2, 0, 0, .MEGA, .N⟩]

/-- Lines 178–188: per piece, the closed-form mass
`(piece_vol / total_vol) * total_mass_for_type` with
`avg_vol_per_piece = 1/(max_log-min_log) * ((10**3)**max_log - (10**3)**min_log)
/ log10(10**3)` over the size range converted to meters, and the pre-averaged
density. -/
noncomputable def exampleFinish (args : GenArgs) (t : Trash) : Trash :=
  let totalMass := args.mean_scale *
    ((mean_plastic_concentration t.size_class t.plastic_type).1 : ℝ) *
    (args.W / 1000) * (args.H / 1000)
  let nPieces := args.mean_scale *
    ((mean_plastic_concentration t.size_class t.plastic_type).2 : ℝ) *
    (args.W / 1000) * (args.H / 1000)
  let minLog := Real.logb 10 (((size_ranges t.size_class).1 : ℝ) / 100)
  let maxLog := Real.logb 10 (((size_ranges t.size_class).2 : ℝ) / 100)
  let avgVol := 1 / (maxLog - minLog) *
    ((10 ^ 3 : ℝ) ^ maxLog - (10 ^ 3 : ℝ) ^ minLog) / Real.logb 10 (10 ^ 3 : ℝ)
  let totalVol := avgVol * nPieces
  setDensity (setMass t (t.size ^ 3 / totalVol * totalMass))
    (avg_density t.size_class t.plastic_type)

/-- Lines 155–190: the `use_example` branch, which never consults the random
streams. -/
noncomputable def examplePieces (args : GenArgs) : List Trash :=
  exampleProtos.map (exampleFinish args)

/-- `generate_trash(W, H, boat_pos, boat_box, centered, mean_scale,
relevant_size_classes, use_example)`, returning the final pieces list together
with the final stream cursors. -/
noncomputable def generate_trash (args : GenArgs) (classes : List SizeClass)
    (use_example : Bool) (ρ : RStream) (fuel : ℕ) :
    Except GenErr (List Trash × RIx) :=
  if use_example then .ok (examplePieces args, ⟨0, 0⟩)
  else genLoop args ρ fuel (bucketList classes) [] ⟨0, 0⟩

/-! ## Auxiliary definitions: derived quantities and concrete instances -/

/-- The exact sum of the mass concentrations over all 16 table buckets (the
quantity the hard-coded total `69.58` is supposed to equal). -/
def totalTableMassConc : ℚ :=
  (allSizeClasses.flatMap (fun sc => allPlasticTypes.map
    (fun pt => (mean_plastic_concentration sc pt).1))).sum

/-- The mean of `size³` under the log-uniform size distribution of a size
class, with sizes in meters, as the claim's words describe it: the integral of
`(10 ^ u) ^ 3` for `u` ranging over `[log10(min/100), log10(max/100)]`,
normalized by the interval length. -/
noncomputable def logUniformMeanVol (sc : SizeClass) : ℝ :=
  let a := Real.logb 10 (((size_ranges sc).1 : ℝ) / 100)
  let b := Real.logb 10 (((size_ranges sc).2 : ℝ) / 100)
  1 / (b - a) * ∫ u in a..b, ((10 : ℝ) ^ u) ^ (3 : ℕ)

/-- The `width=100, height=100, exclusion (0,0)/(0,0), centered=false,
scale=default` argument set of the example-path scenario. -/
noncomputable def argsEx : GenArgs :=
  ⟨100, 100, (0, 0), (0, 0), false, ((default_mean_scale : ℚ) : ℝ)⟩

/-- `total_mass_for_type` of the MEGA/N bucket in the example scenario. -/
noncomputable def exMassTarget : ℝ :=
  ((default_mean_scale : ℚ) : ℝ) * ((4282/100 : ℚ) : ℝ) * (100 / 1000) * (100 / 1000)

/-- `n_pieces_for_type` of the MEGA/N bucket in the example scenario. -/
noncomputable def exNTarget : ℝ :=
  ((default_mean_scale : ℚ) : ℝ) * ((33/10 : ℚ) : ℝ) * (100 / 1000) * (100 / 1000)

/-- The example path's `avg_vol_per_piece` for the MEGA range `[0.5, 2]` m:
`1/(max_log-min_log) * ((10³)^max_log - (10³)^min_log) / log10(10³)`. -/
noncomputable def exAvgVolPerPiece : ℝ :=
  1 / (Real.logb 10 2 - Real.logb 10 (1/2)) *
    ((10 ^ 3 : ℝ) ^ Real.logb 10 2 - (10 ^ 3 : ℝ) ^ Real.logb 10 (1/2)) /
    Real.logb 10 (10 ^ 3 : ℝ)

/-- The example path's implied total volume `avg_vol_per_piece *
n_pieces_for_type` for MEGA/N. -/
noncomputable def exImpliedTotalVolume : ℝ := exAvgVolPerPiece * exNTarget

/-- Both generators constantly output 0. -/
noncomputable def zeroStream : RStream := ⟨fun _ => 0, fun _ => 0⟩

/-- A 1000 m × 1000 m region, no exclusion box, corner origin,
`mean_scale = 1/33`. -/
noncomputable def args1 : GenArgs := ⟨1000, 1000, (0, 0), (0, 0), false, 1/33⟩

/-- A stream whose second numpy draw is 19/20 (forcing the ceiling in the
count rounding of the MEGA/N bucket) and 0 everywhere else. -/
noncomputable def rho1 : RStream := ⟨fun _ => 0, fun k => if k = 1 then 19/20 else 0⟩

/-- The single piece produced by `generate_trash args1 [MEGA] false rho1`. -/
noncomputable def t1 : Trash := ⟨0, 0, 1/2, 2141/165, 920, .MEGA, .N⟩

/-! ## Table facts -/

lemma material_densities_pos (m : Material) : (0 : ℝ) < (material_densities m : ℝ) := by
  cases m <;> norm_num [material_densities]

lemma size_ranges_pos (sc : SizeClass) :
    (0 : ℝ) < ((size_ranges sc).1 : ℝ) ∧ ((size_ranges sc).1 : ℝ) < ((size_ranges sc).2 : ℝ) := by
  cases sc <;> norm_num [size_ranges]

/-- Every bucket with a positive number concentration also has a positive mass
concentration. -/
lemma massConc_pos_of_countConc_pos (sc : SizeClass) (pt : PlasticType)
    (h : (0 : ℝ) < ((mean_plastic_concentration sc pt).2 : ℝ)) :
    (0 : ℝ) < ((mean_plastic_concentration sc pt).1 : ℝ) := by
  cases sc <;> cases pt <;> norm_num [mean_plastic_concentration] at h ⊢

/-- Every (size class, type) pair absent from `plastic_materials` has zero
number concentration. -/
lemma missing_materials_zero_conc (sc : SizeClass) (pt : PlasticType)
    (h : plastic_materials sc pt = none) :
    (mean_plastic_concentration sc pt).2 = 0 := by
  cases sc <;> cases pt <;> simp [plastic_materials, mean_plastic_concentration] at h ⊢

/-! ## Generic list lemmas -/

lemma mapIdx_shift {α β : Type} (f : ℕ → α → β) (g : ℕ → α → β)
    (hfg : ∀ i a, f (i + 1) a = g i a) (l : List α) :
    l.mapIdx (fun i => f (i + 1)) = l.mapIdx g := by
  have : (fun i => f (i + 1)) = g := funext fun i => funext fun a => hfg i a
  rw [this]

/-- The second-pass index window `range(len(pieces) - n, len(pieces))` touches
exactly the freshly appended suffix. -/
lemma mapIdx_append_suffix {α : Type} (g : α → α) :
    ∀ (P Q : List α),
      (P ++ Q).mapIdx (fun i t => if P.length ≤ i then g t else t) = P ++ Q.map g := by
  intro P
  induction P with
  | nil =>
    intro Q
    simp only [List.nil_append, List.length_nil, Nat.zero_le, if_true]
    induction Q with
    | nil => simp
    | cons a Q ihQ => rw [List.mapIdx_cons, List.map_cons, ihQ]
  | cons a P ih =>
    intro Q
    rw [List.cons_append, List.mapIdx_cons]
    simp only [List.length_cons, Nat.not_succ_le_zero, if_false, List.cons_append,
      List.cons.injEq, Nat.add_le_add_iff_right]
    exact ⟨rfl, ih Q⟩

lemma sum_pos_of_mem_pos {l : List ℝ} (hne : l ≠ []) (hpos : ∀ x ∈ l, 0 < x) :
    0 < l.sum := by
  induction l with
  | nil => exact absurd rfl hne
  | cons a l ih =>
    rcases List.eq_nil_or_concat l with h | _
    · subst h; simpa using hpos a (by simp)
    · have hl : l ≠ [] := by
        rintro rfl
        simp_all
      have := ih hl (fun x hx => hpos x (List.mem_cons_of_mem a hx))
      have ha := hpos a (List.mem_cons_self a l)
      simp only [List.sum_cons]
      linarith

/-! ## Invariants of the sampling stages -/

/-- What holds of a freshly drawn piece, before the mass pass. -/
def RawInv (args : GenArgs) (ρ : RStream) (sc : SizeClass) (pt : PlasticType)
    (t : Trash) : Prop :=
  t.size_class = sc ∧ t.plastic_type = pt ∧
  0 < t.density ∧ 0 < t.size ∧ t.mass = 0 ∧
  ¬ insideBoat args.boat_pos args.boat_box t.x t.y ∧
  ∃ u, t.size = (10 : ℝ) ^ u / 100 ∧
    (Valid ρ → Real.logb 10 ((size_ranges sc).1 : ℝ) ≤ u ∧
               u < Real.logb 10 ((size_ranges sc).2 : ℝ))

/-- What holds of every piece of a completed bucket `ps`. -/
def PieceSpec (args : GenArgs) (ρ : RStream) (sc : SizeClass) (pt : PlasticType)
    (ps : List Trash) (t : Trash) : Prop :=
  t.size_class = sc ∧ t.plastic_type = pt ∧
  0 < t.density ∧ 0 < t.size ∧
  ¬ insideBoat args.boat_pos args.boat_box t.x t.y ∧
  (∃ u, t.size = (10 : ℝ) ^ u / 100 ∧
    (Valid ρ → Real.logb 10 ((size_ranges sc).1 : ℝ) ≤ u ∧
               u < Real.logb 10 ((size_ranges sc).2 : ℝ))) ∧
  t.mass = avgMassPerPiece args sc pt * ps.length * (t.density * t.size ^ 3) /
      ((ps.map (fun s => s.density * s.size ^ 3)).sum) ∧
  (0 < args.mean_scale → 0 < args.W → 0 < args.H → 0 < t.mass)

/-- What holds of a completed bucket: every piece satisfies `PieceSpec`, and
the bucket's masses sum to the count-adjusted target
`avg_mass_per_piece * n`. -/
def BucketSpec (args : GenArgs) (ρ : RStream) (b : SizeClass × PlasticType)
    (ps : List Trash) : Prop :=
  (∀ t ∈ ps, PieceSpec args ρ b.1 b.2 ps t) ∧
  (ps.map Trash.mass).sum = avgMassPerPiece args b.1 b.2 * ps.length

lemma drawPos_not_inside (bp bb xr yr : ℝ × ℝ) (ρ : RStream) :
    ∀ (fuel : ℕ) (ix : RIx) (pos : ℝ × ℝ) (ix₁ : RIx),
      drawPos bp bb xr yr ρ fuel ix = .ok (pos, ix₁) →
      ¬ insideBoat bp bb pos.1 pos.2 := by
  intro fuel
  induction fuel with
  | zero => intro ix pos ix₁ h; simp [drawPos] at h
  | succ k ih =>
    intro ix pos ix₁ h
    rw [drawPos] at h
    split at h
    · exact ih _ _ _ h
    · next hc =>
      rw [Except.ok.injEq, Prod.mk.injEq] at h
      obtain ⟨⟨h1, _⟩, _⟩ := Prod.mk.injEq .. ▸ h
      cases h.1
      simpa using hc

lemma drawPiece_rawInv {args : GenArgs} {sc : SizeClass} {pt : PlasticType}
    {ρ : RStream} {fuel : ℕ} {ix : RIx} {t : Trash} {ix₃ : RIx}
    (h : drawPiece args sc pt ρ fuel ix = .ok (t, ix₃)) :
    RawInv args ρ sc pt t := by
  rw [drawPiece] at h
  cases hpos : drawPos args.boat_pos args.boat_box (posRange args).1 (posRange args).2
      ρ fuel ix with
  | error e => rw [hpos] at h; cases h
  | ok v =>
    rw [hpos] at h
    obtain ⟨pos, ix₁⟩ := v
    dsimp only at h
    cases hmat : drawMaterial sc pt ρ (drawSize sc ρ ix₁).2 with
    | error e => rw [hmat] at h; cases h
    | ok w =>
      rw [hmat] at h
      obtain ⟨m, ix₂⟩ := w
      rw [Except.ok.injEq, Prod.mk.injEq] at h
      obtain ⟨ht, _⟩ := h
      subst ht
      have hmin := (size_ranges_pos sc).1
      have hmax := lt_trans hmin (size_ranges_pos sc).2
      have hlogs : Real.logb 10 ((size_ranges sc).1 : ℝ) <
          Real.logb 10 ((size_ranges sc).2 : ℝ) :=
        Real.logb_lt_logb (by norm_num) hmin (size_ranges_pos sc).2
      refine ⟨rfl, rfl, material_densities_pos m, ?_, rfl,
        drawPos_not_inside _ _ _ _ _ _ _ _ _ hpos, ?_⟩
      · simp only [drawSize, pyUniform]
        positivity
      · refine ⟨Real.logb 10 ((size_ranges sc).1 : ℝ) +
          (Real.logb 10 ((size_ranges sc).2 : ℝ) -
            Real.logb 10 ((size_ranges sc).1 : ℝ)) * ρ.pyr ix₁.p, ?_, ?_⟩
        · simp [drawSize, pyUniform]
        · intro hvalid
          obtain ⟨⟨hr0, hr1⟩, _⟩ := hvalid ix₁.p
          constructor
          · nlinarith
          · nlinarith

lemma drawPieces_spec {args : GenArgs} {sc : SizeClass} {pt : PlasticType}
    {ρ : RStream} {fuel : ℕ} :
    ∀ {k : ℕ} {ix : RIx} {raws : List Trash} {wsum : ℝ} {ix₂ : RIx},
      drawPieces args sc pt ρ fuel k ix = .ok (raws, wsum, ix₂) →
      raws.length = k ∧
      wsum = (raws.map (fun s => s.density * s.size ^ 3)).sum ∧
      ∀ t ∈ raws, RawInv args ρ sc pt t := by
  intro k
  induction k with
  | zero =>
    intro ix raws wsum ix₂ h
    rw [drawPieces] at h
    rw [Except.ok.injEq, Prod.mk.injEq] at h
    obtain ⟨h1, h2⟩ := h
    rw [Prod.mk.injEq] at h2
    subst h1
    obtain ⟨h2, _⟩ := h2
    subst h2
    simp
  | succ k ih =>
    intro ix raws wsum ix₂ h
    rw [drawPieces] at h
    cases hp : drawPiece args sc pt ρ fuel ix with
    | error e => rw [hp] at h; cases h
    | ok v =>
      rw [hp] at h
      obtain ⟨t, ix₁⟩ := v
      dsimp only at h
      cases hps : drawPieces args sc pt ρ fuel k ix₁ with
      | error e => rw [hps] at h; cases h
      | ok w =>
        rw [hps] at h
        obtain ⟨ts, wrest, ixr⟩ := w
        rw [Except.ok.injEq, Prod.mk.injEq] at h
        obtain ⟨h1, h2⟩ := h
        rw [Prod.mk.injEq] at h2
        obtain ⟨h2, _⟩ := h2
        subst h1; subst h2
        obtain ⟨hlen, hsum, hinv⟩ := ih hps
        refine ⟨by simp [hlen], by simp [hsum], ?_⟩
        intro s hs
        rcases List.mem_cons.mp hs with rfl | hs
        · exact drawPiece_rawInv hp
        · exact hinv s hs

/-- The central decomposition lemma: a successful bucket appends some list
`ps` of freshly drawn pieces to the accumulated list, leaves the prefix
untouched, and `ps` satisfies the bucket invariants. -/
lemma bucketStep_spec {args : GenArgs} {ρ : RStream} {fuel : ℕ} {sc : SizeClass}
    {pt : PlasticType} {P out : List Trash} {ix ix₂ : RIx}
    (h : bucketStep args ρ fuel sc pt P ix = .ok (out, ix₂)) :
    ∃ ps, out = P ++ ps ∧ BucketSpec args ρ (sc, pt) ps := by
  rw [bucketStep] at h
  split at h
  case isTrue hnT =>
    cases hsr : stochRound (nTarget args sc pt) ρ ix with
    | error e => rw [hsr] at h; cases h
    | ok v =>
      rw [hsr] at h
      obtain ⟨nz, ix₁⟩ := v
      dsimp only at h
      cases hdp : drawPieces args sc pt ρ fuel nz.toNat ix₁ with
      | error e => rw [hdp] at h; cases h
      | ok w =>
        rw [hdp] at h
        obtain ⟨raws, wsum, ixr⟩ := w
        dsimp only at h
        obtain ⟨hlen, hwsum, hinv⟩ := drawPieces_spec hdp
        rw [Except.ok.injEq, Prod.mk.injEq] at h
        obtain ⟨hout, hix⟩ := h
        rw [← hlen] at hout
        simp only [List.length_append, Nat.add_sub_cancel] at hout
        rw [mapIdx_append_suffix] at hout
        set T : ℝ := avgMassPerPiece args sc pt * ((raws.length : ℕ) : ℝ) with hT
        refine ⟨raws.map (fun t => setMass t (T * (t.density * t.size ^ 3) / wsum)),
          hout.symm, ?_, ?_⟩
        · -- per-piece spec
          intro t ht
          rw [List.mem_map] at ht
          obtain ⟨r, hr, rfl⟩ := ht
          obtain ⟨hsc, hpt, hdens, hsize, _, hbox, hu⟩ := hinv r hr
          have hwnn : (raws.map (fun s => s.density * s.size ^ 3)).sum =
              ((raws.map (fun t => setMass t (T * (t.density * t.size ^ 3) / wsum))).map
                (fun s => s.density * s.size ^ 3)).sum := by
            rw [List.map_map]; rfl
          have hne : raws ≠ [] := by rintro rfl; simp at hr
          have hwpos : 0 < wsum := by
            rw [hwsum]
            refine sum_pos_of_mem_pos (by simpa using hne) ?_
            intro x hx
            rw [List.mem_map] at hx
            obtain ⟨s, hs, rfl⟩ := hx
            obtain ⟨_, _, hd, hsz, _⟩ := hinv s hs
            positivity
          refine ⟨hsc, hpt, hdens, hsize, hbox, hu, ?_, ?_⟩
          · show T * (r.density * r.size ^ 3) / wsum = _
            rw [← hwnn, ← hwsum, List.length_map]
            simp only [setMass, hT]
          · intro hscale hW hH
            have hApos : (0 : ℝ) < args.W / 1000 := by linarith
            have hBpos : (0 : ℝ) < args.H / 1000 := by linarith
            have hcc : (0 : ℝ) < ((mean_plastic_concentration sc pt).2 : ℝ) := by
              by_contra hc
              push_neg at hc
              have : nTarget args sc pt ≤ 0 := by
                rw [nTarget]
                have h1 : args.mean_scale * ((mean_plastic_concentration sc pt).2 : ℝ) ≤ 0 :=
                  mul_nonpos_of_nonneg_of_nonpos (le_of_lt hscale) hc |>.trans_eq rfl
                have := mul_nonpos_of_nonpos_of_nonneg
                  (mul_nonpos_of_nonpos_of_nonneg h1 (le_of_lt hApos)) (le_of_lt hBpos)
                exact this
              linarith [hnT]
            have hmc := massConc_pos_of_countConc_pos sc pt hcc
            have hmT : 0 < massTarget args sc pt := by
              rw [massTarget]; positivity
            have havg : 0 < avgMassPerPiece args sc pt := by
              rw [avgMassPerPiece]; exact div_pos hmT hnT
            have hnpos : 0 < raws.length := by
              rcases raws with _ | _
              · simp at hr
              · simp
            have hTpos : 0 < T := by
              rw [hT]
              have : (0 : ℝ) < ((raws.length : ℕ) : ℝ) := by exact_mod_cast hnpos
              exact mul_pos havg this
            have hne : raws ≠ [] := by rintro rfl; simp at hr
            have hwpos : 0 < wsum := by
              rw [hwsum]
              refine sum_pos_of_mem_pos (by simpa using hne) ?_
              intro x hx
              rw [List.mem_map] at hx
              obtain ⟨s, hs, rfl⟩ := hx
              obtain ⟨_, _, hd, hsz, _⟩ := hinv s hs
              positivity
            show 0 < T * (r.density * r.size ^ 3) / wsum
            positivity
        · -- bucket mass sum clause
          show ((raws.map (fun t => setMass t (T * (t.density * t.size ^ 3) / wsum))).map
              Trash.mass).sum = _
          rw [List.map_map, List.length_map]
          rcases List.eq_nil_or_concat raws with rfl | hne0
          · simp
          · have hne : raws ≠ [] := by
              rcases hne0 with ⟨l, a, rfl⟩; simp
            have hwpos : 0 < wsum := by
              rw [hwsum]
              refine sum_pos_of_mem_pos (by simpa using hne) ?_
              intro x hx
              rw [List.mem_map] at hx
              obtain ⟨s, hs, rfl⟩ := hx
              obtain ⟨_, _, hd, hsz, _⟩ := hinv s hs
              positivity
            have hfun : (Trash.mass ∘ fun t =>
                setMass t (T * (t.density * t.size ^ 3) / wsum)) =
                (fun t : Trash => (t.density * t.size ^ 3) * (T / wsum)) := by
              funext t
              show T * (t.density * t.size ^ 3) / wsum = _
              ring
            rw [hfun, List.sum_map_mul_right, ← hwsum]
            field_simp [hT]
  case isFalse hnT =>
    rw [Except.ok.injEq, Prod.mk.injEq] at h
    obtain ⟨hout, _⟩ := h
    refine ⟨[], by rw [← hout, List.append_nil], ?_, ?_⟩
    · intro t ht
      simp at ht
    · simp

/-- The outer nested loop appends one completed bucket after another: the
final list is the concatenation, in bucket order, of bucket segments each of
which satisfies `BucketSpec`. -/
lemma genLoop_spec {args : GenArgs} {ρ : RStream} {fuel : ℕ} :
    ∀ {bl : List (SizeClass × PlasticType)} {P out : List Trash} {ix ix₁ : RIx},
      genLoop args ρ fuel bl P ix = .ok (out, ix₁) →
      ∃ segs : List (List Trash), out = P ++ segs.flatten ∧
        List.Forall₂ (BucketSpec args ρ) bl segs := by
  intro bl
  induction bl with
  | nil =>
    intro P out ix ix₁ h
    rw [genLoop] at h
    rw [Except.ok.injEq, Prod.mk.injEq] at h
    exact ⟨[], by rw [← h.1]; simp, List.Forall₂.nil⟩
  | cons b rest ih =>
    intro P out ix ix₁ h
    rw [genLoop] at h
    cases hb : bucketStep args ρ fuel b.1 b.2 P ix with
    | error e => rw [hb] at h; cases h
    | ok v =>
      rw [hb] at h
      obtain ⟨P₁, ixb⟩ := v
      dsimp only at h
      obtain ⟨ps, hP₁, hspec⟩ := bucketStep_spec hb
      obtain ⟨segs, hout, hforall⟩ := ih h
      refine ⟨ps :: segs, ?_, ?_⟩
      · rw [hout, hP₁, List.flatten_cons, List.append_assoc]
      · exact List.Forall₂.cons (by rwa [Prod.mk.eta] at hspec) hforall

lemma valid_rho1 : Valid rho1 := by
  intro k
  refine ⟨⟨le_refl 0, by norm_num [rho1]⟩, ?_⟩
  simp only [rho1]
  split <;> norm_num

/-- A zero-number-concentration bucket is skipped outright: no draws, no
output, no table lookups, no error. -/
lemma bucketStep_zero_conc (args : GenArgs) (ρ : RStream) (fuel : ℕ)
    (sc : SizeClass) (pt : PlasticType) (P : List Trash) (ix : RIx)
    (h : (mean_plastic_concentration sc pt).2 = 0) :
    bucketStep args ρ fuel sc pt P ix = .ok (P, ix) := by
  have hz : nTarget args sc pt = 0 := by
    rw [nTarget, h]
    push_cast
    ring
  rw [bucketStep, hz]
  simp

/-- With `W = 0` or `H = 0`, every bucket target is zero and the bucket is
skipped. -/
lemma bucketStep_degenerate_area (args : GenArgs) (ρ : RStream) (fuel : ℕ)
    (sc : SizeClass) (pt : PlasticType) (P : List Trash) (ix : RIx)
    (h : args.W = 0 ∨ args.H = 0) :
    bucketStep args ρ fuel sc pt P ix = .ok (P, ix) := by
  have hz : nTarget args sc pt = 0 := by
    rcases h with h | h <;> rw [nTarget, h] <;> ring
  rw [bucketStep, hz]
  simp

lemma genLoop_degenerate_area (args : GenArgs) (ρ : RStream) (fuel : ℕ)
    (h : args.W = 0 ∨ args.H = 0) :
    ∀ (bl : List (SizeClass × PlasticType)) (P : List Trash) (ix : RIx),
      genLoop args ρ fuel bl P ix = .ok (P, ix) := by
  intro bl
  induction bl with
  | nil => intro P ix; rw [genLoop]
  | cons b rest ih =>
    intro P ix
    rw [genLoop, bucketStep_degenerate_area args ρ fuel b.1 b.2 P ix h]
    exact ih P ix

lemma nTarget_args1_H : nTarget args1 .MEGA .H = 1/110 := by
  rw [nTarget]
  norm_num [args1, mean_plastic_concentration]

lemma nTarget_args1_N : nTarget args1 .MEGA .N = 1/10 := by
  rw [nTarget]
  norm_num [args1, mean_plastic_concentration]

lemma avg_args1_N : avgMassPerPiece args1 .MEGA .N = 2141/165 := by
  rw [avgMassPerPiece, massTarget, nTarget_args1_N]
  norm_num [args1, mean_plastic_concentration]

/-- Count rounding for a fractional target in `(0,1)`: floor 0 with
probability `1 - nT`, ceiling 1 with probability `nT`, never an error. -/
lemma stochRound_frac {nT : ℝ} (h0 : 0 < nT) (h1 : nT < 1) (ρ : RStream) (ix : RIx) :
    stochRound nT ρ ix = .ok (if ρ.npr ix.n < 1 - nT then 0 else 1, bumpN ix) := by
  have hf : ⌊nT⌋ = 0 := Int.floor_eq_zero_iff.mpr ⟨le_of_lt h0, h1⟩
  have hc : ⌈nT⌉ = 1 := by
    rw [Int.ceil_eq_iff]
    constructor <;> push_cast <;> linarith
  rw [stochRound, npChoice2, hf, hc]
  norm_num

lemma drawPos_args1 : drawPos args1.boat_pos args1.boat_box (0, 1000) (0, 1000)
    rho1 1 ⟨0, 2⟩ = .ok ((0, 0), ⟨2, 2⟩) := by
  rw [drawPos]
  have h0 : rho1.pyr 0 = 0 := rfl
  have h1 : rho1.pyr 1 = 0 := rfl
  simp only [pyUniform, bumpP, h0, h1, mul_zero, add_zero]
  rw [if_neg (by norm_num [insideBoat, args1])]

lemma drawSize_MEGA_rho1 : drawSize .MEGA rho1 ⟨2, 2⟩ = (1/2, ⟨3, 2⟩) := by
  rw [drawSize]
  have h2 : rho1.pyr 2 = 0 := rfl
  simp only [size_ranges, pyUniform, bumpP, h2, mul_zero, add_zero]
  rw [Real.rpow_logb (by norm_num) (by norm_num) (by norm_num)]
  norm_num

lemma drawMaterial_MEGA_N_rho1 : drawMaterial .MEGA .N rho1 ⟨3, 2⟩ = .ok (.PE, ⟨3, 3⟩) := by
  rw [drawMaterial]
  simp only [plastic_materials, List.map_cons, List.map_nil, List.sum_cons, List.sum_nil]
  rw [pickWeighted, if_pos (by norm_num [rho1])]
  rfl

lemma drawPiece_args1_N : drawPiece args1 .MEGA .N rho1 1 ⟨0, 2⟩ =
    .ok (⟨0, 0, 1/2, 0, 920, .MEGA, .N⟩, ⟨3, 3⟩) := by
  rw [drawPiece]
  have hpr : posRange args1 = ((0, 1000), (0, 1000)) := by
    simp [posRange, args1]
  rw [hpr]
  rw [drawPos_args1]
  dsimp only
  rw [drawSize_MEGA_rho1]
  dsimp only
  rw [drawMaterial_MEGA_N_rho1]
  norm_num [material_densities]

lemma drawPieces_args1_N : drawPieces args1 .MEGA .N rho1 1 1 ⟨0, 2⟩ =
    .ok ([⟨0, 0, 1/2, 0, 920, .MEGA, .N⟩], 115, ⟨3, 3⟩) := by
  rw [drawPieces, drawPiece_args1_N]
  dsimp only
  rw [show drawPieces args1 .MEGA .N rho1 1 0 ⟨3, 3⟩ = .ok ([], 0, ⟨3, 3⟩) from rfl]
  norm_num

lemma bucketH : bucketStep args1 rho1 1 .MEGA .H [] ⟨0, 0⟩ = .ok ([], ⟨0, 1⟩) := by
  rw [bucketStep, if_pos (by rw [nTarget_args1_H]; norm_num), nTarget_args1_H,
    stochRound_frac (by norm_num) (by norm_num)]
  rw [if_pos (by norm_num [rho1])]
  rfl

lemma bucketN : bucketStep args1 rho1 1 .MEGA .N [] ⟨0, 1⟩ = .ok ([t1], ⟨3, 3⟩) := by
  rw [bucketStep, if_pos (by rw [nTarget_args1_N]; norm_num), nTarget_args1_N,
    stochRound_frac (by norm_num) (by norm_num)]
  rw [if_neg (by norm_num [rho1])]
  dsimp only
  rw [show ((1 : ℤ).toNat) = 1 from rfl]
  rw [show (bumpN ⟨0, 1⟩ : RIx) = ⟨0, 2⟩ from rfl]
  rw [drawPieces_args1_N]
  dsimp only
  rw [List.nil_append, avg_args1_N]
  norm_num [List.mapIdx_cons, List.mapIdx_nil, setMass, t1]

lemma gen_args1 : generate_trash args1 [.MEGA] false rho1 1 = .ok ([t1], ⟨3, 3⟩) := by
  rw [generate_trash, if_neg (by simp)]
  rw [show bucketList [SizeClass.MEGA] =
    [(.MEGA, .H), (.MEGA, .N), (.MEGA, .P), (.MEGA, .F)] from rfl]
  rw [genLoop]
  dsimp only
  rw [bucketH]
  dsimp only
  rw [genLoop]
  dsimp only
  rw [bucketN]
  dsimp only
  rw [genLoop]
  dsimp only
  rw [bucketStep_zero_conc args1 rho1 1 .MEGA .P [t1] ⟨3, 3⟩ rfl]
  dsimp only
  rw [genLoop]
  dsimp only
  rw [bucketStep_zero_conc args1 rho1 1 .MEGA .F [t1] ⟨3, 3⟩ rfl]
  dsimp only
  rw [genLoop]

lemma forall₂_exists_left {α β : Type} {R : α → β → Prop} :
    ∀ {l₁ : List α} {l₂ : List β}, List.Forall₂ R l₁ l₂ → ∀ b ∈ l₂, ∃ a ∈ l₁, R a b := by
  intro l₁ l₂ h
  induction h with
  | nil => intro b hb; simp at hb
  | cons hr _ ih =>
    intro b hb
    rcases List.mem_cons.mp hb with rfl | hb
    · exact ⟨_, List.mem_cons_self _ _, hr⟩
    · obtain ⟨a, ha, hab⟩ := ih b hb
      exact ⟨a, List.mem_cons_of_mem _ ha, hab⟩

/-- When the target is exactly an integer, the probability pair passed to the
choice routine is `(1, 1)`; numpy's validation fails. -/
lemma stochRound_int (nT : ℝ) (m : ℤ) (h : nT = m) (ρ : RStream) (ix : RIx) :
    stochRound nT ρ ix = .error .probsNotOne := by
  subst h
  rw [stochRound, npChoice2, Int.floor_intCast, Int.ceil_intCast]
  rw [if_neg (by norm_num)]

lemma nTarget_args2_H :
    nTarget ⟨1000, 1000, (0, 0), (0, 0), false, 1⟩ .MESO .H = 20993 := by
  rw [nTarget]
  norm_num [mean_plastic_concentration]

/-- At `W = H = 1000` and `scale = 1`, the first bucket (MESO/H) has the exact
integer target 20993 and the whole generation run fails with numpy's
probability-validation error. -/
lemma gen_args2_errors :
    generate_trash ⟨1000, 1000, (0, 0), (0, 0), false, 1⟩ [.MESO] false zeroStream 1 =
      .error .probsNotOne := by
  rw [generate_trash, if_neg (by simp)]
  rw [show bucketList [SizeClass.MESO] =
    [(.MESO, .H), (.MESO, .N), (.MESO, .P), (.MESO, .F)] from rfl]
  rw [genLoop]
  dsimp only
  rw [bucketStep, if_pos (by rw [nTarget_args2_H]; norm_num), nTarget_args2_H,
    stochRound_int 20993 20993 (by norm_num) zeroStream ⟨0, 0⟩]

/-! ## Claims -/

/-- C1: in every bucket generated by the stochastic path, mass is assigned in
a second pass over exactly the `n` particles just added to the bucket (the
previously accumulated prefix is returned unchanged), as
`mass = totalMassTarget * (density * size³) / totalWeight`, where
`totalWeight` is the sum of `density * size³` over those `n` particles and
`totalMassTarget` is the count-adjusted target `avgMassPerPiece * n`;
consequently (for positive scale, width and height) every such mass is
strictly positive, and the bucket's masses sum exactly to the count-adjusted
target. -/
theorem C1_bucket_mass_normalization
    (args : GenArgs) (ρ : RStream) (fuel : ℕ) (sc : SizeClass) (pt : PlasticType)
    (P out : List Trash) (ix ix₂ : RIx)
    (h : bucketStep args ρ fuel sc pt P ix = .ok (out, ix₂)) :
    ∃ ps, out = P ++ ps ∧
      (∀ t ∈ ps, t.mass = avgMassPerPiece args sc pt * ps.length *
          (t.density * t.size ^ 3) / ((ps.map (fun s => s.density * s.size ^ 3)).sum)) ∧
      (ps.map Trash.mass).sum = avgMassPerPiece args sc pt * ps.length ∧
      (0 < args.mean_scale → 0 < args.W → 0 < args.H → ∀ t ∈ ps, 0 < t.mass) := by
  obtain ⟨ps, hout, hpiece, hsum⟩ := bucketStep_spec h
  exact ⟨ps, hout, fun t ht => (hpiece t ht).2.2.2.2.2.2.1, hsum,
    fun h1 h2 h3 t ht => (hpiece t ht).2.2.2.2.2.2.2 h1 h2 h3⟩

theorem C1_witness :
    ∃ ps, [t1] = ([] : List Trash) ++ ps ∧
      (∀ t ∈ ps, t.mass = avgMassPerPiece args1 .MEGA .N * ps.length *
          (t.density * t.size ^ 3) / ((ps.map (fun s => s.density * s.size ^ 3)).sum)) ∧
      (ps.map Trash.mass).sum = avgMassPerPiece args1 .MEGA .N * ps.length ∧
      (0 < args1.mean_scale → 0 < args1.W → 0 < args1.H → ∀ t ∈ ps, 0 < t.mass) :=
  C1_bucket_mass_normalization args1 rho1 1 .MEGA .N [] [t1] ⟨0, 1⟩ ⟨3, 3⟩ bucketN

/-- C2 (amended): for a bucket target `nT > 0` that is not an integer, the
probability pair `(1-frac, 1-(ceil-nT))` sums to 1, the draw returns
`floor nT` exactly when the uniform draw falls below `1-frac` and `ceil nT`
otherwise (so the realized count is always floor or ceil, and the expectation
`(1-frac)*floor + frac*ceil` equals `nT`); but when `nT` is exactly an
integer the probability pair is `(1,1)` and the choice call fails with
numpy's `probabilities do not sum to 1` error instead of returning that
integer. -/
theorem C2_stochastic_count_rounding :
    (∀ (nT : ℝ) (ρ : RStream) (ix : RIx), 0 < nT → (⌊nT⌋ : ℝ) < nT →
      ((1 - (nT - ⌊nT⌋)) + (1 - ((⌈nT⌉ : ℝ) - nT)) = 1 ∧
       stochRound nT ρ ix =
         .ok (if ρ.npr ix.n < 1 - (nT - ⌊nT⌋) then ⌊nT⌋ else ⌈nT⌉, bumpN ix) ∧
       (∀ (n : ℤ) (ix₁ : RIx), stochRound nT ρ ix = .ok (n, ix₁) →
          n = ⌊nT⌋ ∨ n = ⌈nT⌉) ∧
       (1 - (nT - ⌊nT⌋)) * (⌊nT⌋ : ℝ) + (nT - ⌊nT⌋) * (⌈nT⌉ : ℝ) = nT)) ∧
    (∀ (nT : ℝ) (ρ : RStream) (ix : RIx), (⌊nT⌋ : ℝ) = nT →
      stochRound nT ρ ix = .error .probsNotOne) := by
  constructor
  · intro nT ρ ix h0 hfrac
    have hlt : ⌊nT⌋ < ⌈nT⌉ := by
      have h1 : (⌊nT⌋ : ℝ) < (⌈nT⌉ : ℝ) := lt_of_lt_of_le hfrac (Int.le_ceil nT)
      exact_mod_cast h1
    have hceil : ⌈nT⌉ = ⌊nT⌋ + 1 := le_antisymm (Int.ceil_le_floor_add_one nT) (by omega)
    have hsum : (1 - (nT - ⌊nT⌋)) + (1 - ((⌈nT⌉ : ℝ) - nT)) = 1 := by
      rw [hceil]
      push_cast
      ring
    have heval : stochRound nT ρ ix =
        .ok (if ρ.npr ix.n < 1 - (nT - ⌊nT⌋) then ⌊nT⌋ else ⌈nT⌉, bumpN ix) := by
      rw [stochRound, npChoice2, if_pos hsum]
    refine ⟨hsum, heval, ?_, ?_⟩
    · intro n ix₁ hn
      rw [heval, Except.ok.injEq, Prod.mk.injEq] at hn
      obtain ⟨hn, _⟩ := hn
      split at hn
      · exact Or.inl hn.symm
      · exact Or.inr hn.symm
    · rw [hceil]
      push_cast
      ring
  · intro nT ρ ix h
    exact stochRound_int nT ⌊nT⌋ h.symm ρ ix

theorem C2_witness :
    ((1 - ((1/10 : ℝ) - ⌊(1/10 : ℝ)⌋)) + (1 - ((⌈(1/10 : ℝ)⌉ : ℝ) - 1/10)) = 1 ∧
     stochRound (1/10) rho1 ⟨0, 1⟩ =
       .ok (if rho1.npr 1 < 1 - ((1/10 : ℝ) - ⌊(1/10 : ℝ)⌋) then ⌊(1/10 : ℝ)⌋
            else ⌈(1/10 : ℝ)⌉, bumpN ⟨0, 1⟩) ∧
     (∀ (n : ℤ) (ix₁ : RIx), stochRound (1/10) rho1 ⟨0, 1⟩ = .ok (n, ix₁) →
        n = ⌊(1/10 : ℝ)⌋ ∨ n = ⌈(1/10 : ℝ)⌉) ∧
     (1 - ((1/10 : ℝ) - ⌊(1/10 : ℝ)⌋)) * (⌊(1/10 : ℝ)⌋ : ℝ) +
       ((1/10 : ℝ) - ⌊(1/10 : ℝ)⌋) * (⌈(1/10 : ℝ)⌉ : ℝ) = 1/10) ∧
    stochRound (3 : ℝ) zeroStream ⟨0, 0⟩ = .error .probsNotOne :=
  ⟨C2_stochastic_count_rounding.1 (1/10) rho1 ⟨0, 1⟩ (by norm_num) (by norm_num),
   C2_stochastic_count_rounding.2 (3 : ℝ) zeroStream ⟨0, 0⟩ (by norm_num)⟩

/-- C2 counterexample: the claim asserts that an integer-valued target yields
that integer; in fact the run `W=H=1000, scale=1, classes=[MESO]` reaches a
first bucket (MESO/H) with exact integer target `20993 > 0` and the
generation raises numpy's probability-validation error — no count is
realized at all. -/
theorem C2_counterexample :
    generate_trash ⟨1000, 1000, (0, 0), (0, 0), false, 1⟩ [.MESO] false zeroStream 1 =
      .error .probsNotOne :=
  gen_args2_errors

/-- C4: every particle of a successful stochastic run lies not-strictly-inside
the exclusion rectangle (i.e. is rejected exactly when strictly inside on
both axes); a degenerate rectangle with zero width or zero height excludes no
point, and with such a rectangle every candidate position is accepted on the
first draw (two stream draws, no retry). -/
theorem C4_exclusion_rectangle :
    (∀ (args : GenArgs) (classes : List SizeClass) (ρ : RStream) (fuel : ℕ)
        (out : List Trash) (ix : RIx),
        generate_trash args classes false ρ fuel = .ok (out, ix) →
        ∀ t ∈ out, ¬ insideBoat args.boat_pos args.boat_box t.x t.y) ∧
    (∀ (bp bb : ℝ × ℝ) (x y : ℝ), bb.1 = 0 ∨ bb.2 = 0 → ¬ insideBoat bp bb x y) ∧
    (∀ (bp bb xr yr : ℝ × ℝ) (ρ : RStream) (fuel : ℕ) (ix : RIx),
        bb.1 = 0 ∨ bb.2 = 0 →
        drawPos bp bb xr yr ρ (fuel + 1) ix =
          .ok ((xr.1 + (xr.2 - xr.1) * ρ.pyr ix.p,
                yr.1 + (yr.2 - yr.1) * ρ.pyr (ix.p + 1)), ⟨ix.p + 2, ix.n⟩)) := by
  have hdeg : ∀ (bp bb : ℝ × ℝ) (x y : ℝ), bb.1 = 0 ∨ bb.2 = 0 →
      ¬ insideBoat bp bb x y := by
    intro bp bb x y h hin
    obtain ⟨h1, h2, h3, h4⟩ := hin
    rcases h with h | h
    · rw [h] at h1 h2; linarith
    · rw [h] at h3 h4; linarith
  refine ⟨?_, hdeg, ?_⟩
  · intro args classes ρ fuel out ix h t ht
    rw [generate_trash, if_neg (by simp)] at h
    obtain ⟨segs, hout, hf⟩ := genLoop_spec h
    rw [hout] at ht
    rw [List.nil_append] at ht
    obtain ⟨seg, hseg, htseg⟩ := List.mem_flatten.mp ht
    obtain ⟨b, _, hb⟩ := forall₂_exists_left hf seg hseg
    exact (hb.1 t htseg).2.2.2.2.1
  · intro bp bb xr yr ρ fuel ix h
    rw [drawPos]
    dsimp only [pyUniform, bumpP]
    rw [if_neg (hdeg bp bb _ _ h)]

theorem C4_witness :
    (¬ insideBoat args1.boat_pos args1.boat_box t1.x t1.y) ∧
    (¬ insideBoat (3, 4) (0, 6) 100 7) ∧
    drawPos (3, 4) (0, 6) (0, 10) (0, 10) zeroStream 1 ⟨0, 0⟩ =
      .ok ((0 + (10 - 0) * zeroStream.pyr 0, 0 + (10 - 0) * zeroStream.pyr 1),
           ⟨2, 0⟩) :=
  ⟨C4_exclusion_rectangle.1 args1 [.MEGA] rho1 1 [t1] ⟨3, 3⟩ gen_args1 t1 (by simp),
   C4_exclusion_rectangle.2.1 (3, 4) (0, 6) 100 7 (Or.inl rfl),
   C4_exclusion_rectangle.2.2 (3, 4) (0, 6) (0, 10) (0, 10) zeroStream 0 ⟨0, 0⟩
     (Or.inl rfl)⟩

/-- C5: for a valid randomness source, every particle of a successful
stochastic run has `size` obtained as `10^u / 100` for a draw `u` in
`[log10(min_cm), log10(max_cm))` of its size class, and therefore `size` lies
in `[min_cm, max_cm) / 100` meters. -/
theorem C5_log_uniform_sizes
    (args : GenArgs) (classes : List SizeClass) (ρ : RStream) (fuel : ℕ)
    (out : List Trash) (ix : RIx) (hv : Valid ρ)
    (h : generate_trash args classes false ρ fuel = .ok (out, ix)) :
    ∀ t ∈ out,
      ((size_ranges t.size_class).1 : ℝ) / 100 ≤ t.size ∧
      t.size < ((size_ranges t.size_class).2 : ℝ) / 100 ∧
      ∃ u, Real.logb 10 ((size_ranges t.size_class).1 : ℝ) ≤ u ∧
           u < Real.logb 10 ((size_ranges t.size_class).2 : ℝ) ∧
           t.size = (10 : ℝ) ^ u / 100 := by
  intro t ht
  rw [generate_trash, if_neg (by simp)] at h
  obtain ⟨segs, hout, hf⟩ := genLoop_spec h
  rw [hout, List.nil_append] at ht
  obtain ⟨seg, hseg, htseg⟩ := List.mem_flatten.mp ht
  obtain ⟨b, _, hb⟩ := forall₂_exists_left hf seg hseg
  obtain ⟨hsc, _, _, _, _, ⟨u, hus, hur⟩, _, _⟩ := hb.1 t htseg
  obtain ⟨hul, huu⟩ := hur hv
  rw [hsc]
  have hmin := (size_ranges_pos b.1).1
  have hmax := lt_trans hmin (size_ranges_pos b.1).2
  refine ⟨?_, ?_, u, hul, huu, hus⟩
  · rw [hus]
    have hrw : ((size_ranges b.1).1 : ℝ) =
        (10 : ℝ) ^ (Real.logb 10 ((size_ranges b.1).1 : ℝ)) :=
      (Real.rpow_logb (by norm_num) (by norm_num) hmin).symm
    calc ((size_ranges b.1).1 : ℝ) / 100
        = (10 : ℝ) ^ (Real.logb 10 ((size_ranges b.1).1 : ℝ)) / 100 := by rw [← hrw]
      _ ≤ (10 : ℝ) ^ u / 100 := by
          apply (div_le_div_iff_of_pos_right (by norm_num : (0:ℝ) < 100)).mpr
          exact (Real.rpow_le_rpow_left_iff (by norm_num)).mpr hul
  · rw [hus]
    have hrw : ((size_ranges b.1).2 : ℝ) =
        (10 : ℝ) ^ (Real.logb 10 ((size_ranges b.1).2 : ℝ)) :=
      (Real.rpow_logb (by norm_num) (by norm_num) hmax).symm
    calc (10 : ℝ) ^ u / 100
        < (10 : ℝ) ^ (Real.logb 10 ((size_ranges b.1).2 : ℝ)) / 100 := by
          apply (div_lt_div_iff_of_pos_right (by norm_num : (0:ℝ) < 100)).mpr
          exact (Real.rpow_lt_rpow_left_iff (by norm_num)).mpr huu
      _ = ((size_ranges b.1).2 : ℝ) / 100 := by rw [← hrw]

theorem C5_witness :
    ((size_ranges t1.size_class).1 : ℝ) / 100 ≤ t1.size ∧
    t1.size < ((size_ranges t1.size_class).2 : ℝ) / 100 ∧
    ∃ u, Real.logb 10 ((size_ranges t1.size_class).1 : ℝ) ≤ u ∧
         u < Real.logb 10 ((size_ranges t1.size_class).2 : ℝ) ∧
         t1.size = (10 : ℝ) ^ u / 100 :=
  C5_log_uniform_sizes args1 [.MEGA] rho1 1 [t1] ⟨3, 3⟩ valid_rho1 gen_args1 t1 (by simp)

/-- C6: the generator output is a pure function of the arguments and the two
random streams: two calls with identical arguments and pointwise-identical
streams produce identical results (same sequence, every field of every
particle equal). -/
theorem C6_deterministic (args : GenArgs) (classes : List SizeClass) (ue : Bool)
    (fuel : ℕ) (ρ₁ ρ₂ : RStream)
    (hp : ∀ k, ρ₁.pyr k = ρ₂.pyr k) (hn : ∀ k, ρ₁.npr k = ρ₂.npr k) :
    generate_trash args classes ue ρ₁ fuel = generate_trash args classes ue ρ₂ fuel := by
  obtain ⟨p₁, n₁⟩ := ρ₁
  obtain ⟨p₂, n₂⟩ := ρ₂
  have h1 : p₁ = p₂ := funext hp
  have h2 : n₁ = n₂ := funext hn
  rw [h1, h2]

theorem C6_witness :
    generate_trash args1 [.MEGA] false rho1 1 =
      generate_trash args1 [.MEGA] false ⟨fun _ => 0, rho1.npr⟩ 1 :=
  C6_deterministic args1 [.MEGA] false 1 rho1 ⟨fun _ => 0, rho1.npr⟩
    (fun _ => rfl) (fun _ => rfl)

/-- C7 (amended): the code performs no width/height validation and defines no
configuration error; with width or height equal to zero every bucket target
vanishes and the stochastic path silently returns the empty sequence without
consuming any randomness. -/
theorem C7_no_validation (args : GenArgs) (classes : List SizeClass)
    (ρ : RStream) (fuel : ℕ) (h : args.W = 0 ∨ args.H = 0) :
    generate_trash args classes false ρ fuel = .ok ([], ⟨0, 0⟩) := by
  rw [generate_trash, if_neg (by simp)]
  exact genLoop_degenerate_area args ρ fuel h (bucketList classes) [] ⟨0, 0⟩

theorem C7_witness :
    generate_trash ⟨100, 0, (0, 0), (0, 0), false, 1⟩ [.MESO, .MACRO, .MEGA]
      false zeroStream 1 = .ok ([], ⟨0, 0⟩) :=
  C7_no_validation ⟨100, 0, (0, 0), (0, 0), false, 1⟩ [.MESO, .MACRO, .MEGA]
    zeroStream 1 (Or.inr rfl)

/-- C7 counterexample: with `width = 0` (a non-positive width) the claimed
`ConfigurationError` is not raised — no error type for it even exists in the
code — and the call returns the empty list successfully. -/
theorem C7_counterexample :
    generate_trash ⟨0, 100, (0, 0), (0, 0), false, ((default_mean_scale : ℚ) : ℝ)⟩
      [.MESO, .MACRO, .MEGA] false zeroStream 1 = .ok ([], ⟨0, 0⟩) := by
  rw [generate_trash, if_neg (by simp)]
  exact genLoop_degenerate_area _ zeroStream 1 (Or.inl rfl) _ [] ⟨0, 0⟩

/-- C8: a bucket whose number concentration is zero yields zero particles,
consumes no randomness and never errors (in particular the material table is
never consulted, so its absent entries cannot cause a lookup failure);
moreover every (size class, category) pair absent from the material table has
zero number concentration in the concentration table. -/
theorem C8_zero_concentration_buckets :
    (∀ (args : GenArgs) (ρ : RStream) (fuel : ℕ) (sc : SizeClass)
        (pt : PlasticType) (P : List Trash) (ix : RIx),
        (mean_plastic_concentration sc pt).2 = 0 →
        bucketStep args ρ fuel sc pt P ix = .ok (P, ix)) ∧
    (∀ (sc : SizeClass) (pt : PlasticType), plastic_materials sc pt = none →
        (mean_plastic_concentration sc pt).2 = 0) :=
  ⟨bucketStep_zero_conc, missing_materials_zero_conc⟩

theorem C8_witness :
    bucketStep args1 zeroStream 1 .MEGA .P [] ⟨0, 0⟩ = .ok ([], ⟨0, 0⟩) ∧
    (mean_plastic_concentration .MACRO .P).2 = 0 :=
  ⟨C8_zero_concentration_buckets.1 args1 zeroStream 1 .MEGA .P [] ⟨0, 0⟩ rfl,
   C8_zero_concentration_buckets.2 .MACRO .P rfl⟩

/-- C9 (amended): `default_mean_scale` is `100 / 69.58`, where `69.58` is a
hard-coded, rounded total; the exact sum of the table's bucket mass
concentrations is `69.5763`, so the sum of the scaled bucket concentrations
is `695763/6958 ≈ 99.9947` kg/km², close to but not exactly 100. -/
theorem C9_default_scale :
    default_mean_scale = 100 / (6958/100) ∧
    totalTableMassConc = 695763/10000 ∧
    default_mean_scale * totalTableMassConc = 695763/6958 ∧
    default_mean_scale * totalTableMassConc ≠ 100 := by
  refine ⟨rfl, ?_, ?_, ?_⟩ <;>
    norm_num [default_mean_scale, total_mean_plastic_concentration, totalTableMassConc,
      allSizeClasses, allPlasticTypes, mean_plastic_concentration]

/-- C9 counterexample: scaling the table by `default_mean_scale` does not give
exactly 100 kg/km² in total, because the hard-coded divisor 69.58 is not the
exact table sum 69.5763. -/
theorem C9_counterexample : default_mean_scale * totalTableMassConc ≠ 100 := by
  norm_num [default_mean_scale, total_mean_plastic_concentration, totalTableMassConc,
    allSizeClasses, allPlasticTypes, mean_plastic_concentration]

/-- C10: the stochastic output is grouped bucket by bucket with no
interleaving: the returned list is the concatenation, following the order of
the caller's size-class list with the fixed material order H, N, P, F within
each class, of per-bucket segments whose particles all carry that bucket's
size class and material category. -/
theorem C10_output_grouped (args : GenArgs) (classes : List SizeClass)
    (ρ : RStream) (fuel : ℕ) (out : List Trash) (ix : RIx)
    (h : generate_trash args classes false ρ fuel = .ok (out, ix)) :
    ∃ segs : List (List Trash),
      out = segs.flatten ∧
      List.Forall₂ (fun (b : SizeClass × PlasticType) (seg : List Trash) =>
        ∀ t ∈ seg, t.size_class = b.1 ∧ t.plastic_type = b.2)
        (bucketList classes) segs := by
  rw [generate_trash, if_neg (by simp)] at h
  obtain ⟨segs, hout, hf⟩ := genLoop_spec h
  refine ⟨segs, by simpa using hout, ?_⟩
  exact hf.imp (fun b seg hb => fun t ht => ⟨(hb.1 t ht).1, (hb.1 t ht).2.1⟩)

theorem C10_witness :
    ∃ segs : List (List Trash),
      [t1] = segs.flatten ∧
      List.Forall₂ (fun (b : SizeClass × PlasticType) (seg : List Trash) =>
        ∀ t ∈ seg, t.size_class = b.1 ∧ t.plastic_type = b.2)
        (bucketList [SizeClass.MEGA]) segs :=
  C10_output_grouped args1 [.MEGA] rho1 1 [t1] ⟨3, 3⟩ gen_args1

/-! ## The example path: support for C3 -/

lemma log_ten_gt_one : (1 : ℝ) < Real.log 10 := by
  have h := Real.exp_one_lt_d9
  have h10 : Real.exp 1 < 10 := by linarith
  calc (1 : ℝ) = Real.log (Real.exp 1) := (Real.log_exp 1).symm
    _ < Real.log 10 := Real.log_lt_log (Real.exp_pos 1) h10

lemma logb_two_pos : 0 < Real.logb 10 2 := Real.logb_pos (by norm_num) (by norm_num)

lemma logb_half_eq : Real.logb 10 (1/2 : ℝ) = -Real.logb 10 2 := by
  rw [one_div, Real.logb_inv]

lemma rpow_thousand_logb_two : (10 ^ 3 : ℝ) ^ Real.logb 10 2 = 8 := by
  rw [show ((10 : ℝ) ^ (3 : ℕ)) = (10 : ℝ) ^ ((3 : ℕ) : ℝ) from
      (Real.rpow_natCast 10 3).symm,
    ← Real.rpow_mul (by norm_num : (0 : ℝ) ≤ 10), mul_comm,
    Real.rpow_mul (by norm_num : (0 : ℝ) ≤ 10),
    Real.rpow_logb (by norm_num) (by norm_num) (by norm_num), Real.rpow_natCast]
  norm_num

lemma rpow_thousand_logb_half : (10 ^ 3 : ℝ) ^ Real.logb 10 (1/2 : ℝ) = 1/8 := by
  rw [logb_half_eq, Real.rpow_neg (by norm_num), rpow_thousand_logb_two]
  norm_num

lemma logb_ten_cubed : Real.logb 10 (10 ^ 3 : ℝ) = 3 := by
  rw [show ((10 : ℝ) ^ (3 : ℕ)) = (10 : ℝ) ^ ((3 : ℕ) : ℝ) from
      (Real.rpow_natCast 10 3).symm,
    Real.logb_rpow (by norm_num) (by norm_num)]
  norm_num

lemma cube_rpow_ten (u : ℝ) :
    ((10 : ℝ) ^ u) ^ (3 : ℕ) = Real.exp ((3 * Real.log 10) * u) := by
  rw [Real.rpow_def_of_pos (by norm_num : (0 : ℝ) < 10), ← Real.exp_nat_mul]
  congr 1
  push_cast
  ring

lemma integral_exp_mul_const (c a b : ℝ) (hc : c ≠ 0) :
    (∫ u in a..b, Real.exp (c * u)) = (Real.exp (c * b) - Real.exp (c * a)) / c := by
  rw [intervalIntegral.integral_comp_mul_left (fun x => Real.exp x) hc, integral_exp]
  field_simp

/-- The code's `avg_vol_per_piece` for the MEGA size range, in closed form. -/
lemma exAvgVolPerPiece_eq :
    exAvgVolPerPiece = 1 / (2 * Real.logb 10 2) * (63/8) / 3 := by
  rw [exAvgVolPerPiece, rpow_thousand_logb_two, rpow_thousand_logb_half,
    logb_ten_cubed, logb_half_eq]
  ring

/-- The genuine mean volume of the log-uniform size distribution over the
MEGA range, in closed form: it carries an extra `log 10` in the denominator
relative to the code's `avg_vol_per_piece`. -/
lemma logUniformMeanVol_MEGA :
    logUniformMeanVol .MEGA = 1 / (2 * Real.logb 10 2) * (63/8) / (3 * Real.log 10) := by
  have hlogpos : (0 : ℝ) < Real.log 10 := Real.log_pos (by norm_num)
  have hlog : Real.log 10 ≠ 0 := ne_of_gt hlogpos
  have hc : (3 * Real.log 10) ≠ 0 := by
    intro h
    have : Real.log 10 = 0 := by linarith [h]
    exact hlog this
  rw [logUniformMeanVol]
  have h1 : ((size_ranges SizeClass.MEGA).1 : ℝ) / 100 = 1/2 := by
    norm_num [size_ranges]
  have h2 : ((size_ranges SizeClass.MEGA).2 : ℝ) / 100 = 2 := by
    norm_num [size_ranges]
  rw [h1, h2, logb_half_eq]
  have hEq : Set.EqOn (fun u : ℝ => ((10 : ℝ) ^ u) ^ (3 : ℕ))
      (fun u : ℝ => Real.exp ((3 * Real.log 10) * u))
      (Set.uIcc (-Real.logb 10 2) (Real.logb 10 2)) := fun u _ => cube_rpow_ten u
  rw [intervalIntegral.integral_congr hEq]
  rw [integral_exp_mul_const _ _ _ hc]
  have h3 : (3 * Real.log 10) * Real.logb 10 2 = 3 * Real.log 2 := by
    rw [Real.logb]
    field_simp
    ring
  have he1 : Real.exp ((3 * Real.log 10) * Real.logb 10 2) = 8 := by
    rw [h3, show (3 : ℝ) * Real.log 2 = ((3 : ℕ) : ℝ) * Real.log 2 from by norm_num,
      Real.exp_nat_mul, Real.exp_log (by norm_num : (0 : ℝ) < 2)]
    norm_num
  have he2 : Real.exp ((3 * Real.log 10) * -Real.logb 10 2) = 1/8 := by
    rw [mul_neg, Real.exp_neg, he1]
    norm_num
  rw [he1, he2]
  ring

/-- The code's implied average volume is exactly `log 10` times the true
log-uniform mean volume. -/
lemma exAvgVolPerPiece_vs_integral :
    exAvgVolPerPiece = Real.log 10 * logUniformMeanVol .MEGA := by
  have hlogpos : (0 : ℝ) < Real.log 10 := Real.log_pos (by norm_num)
  have hLpos := logb_two_pos
  rw [exAvgVolPerPiece_eq, logUniformMeanVol_MEGA]
  field_simp
  ring

lemma logUniformMeanVol_MEGA_pos : 0 < logUniformMeanVol .MEGA := by
  have hlogpos : (0 : ℝ) < Real.log 10 := Real.log_pos (by norm_num)
  have hLpos := logb_two_pos
  rw [logUniformMeanVol_MEGA]
  positivity

lemma exMassTarget_pos : 0 < exMassTarget := by
  rw [exMassTarget]
  norm_num [default_mean_scale, total_mean_plastic_concentration]

lemma exNTarget_pos : 0 < exNTarget := by
  rw [exNTarget]
  norm_num [default_mean_scale, total_mean_plastic_concentration]

/-- Full evaluation of one example-path piece with MEGA/N tags: geometry is
preserved, the density is the pre-averaged `826.05`, and the mass is the
closed-form ratio with the code's implied total volume. -/
lemma exampleFinish_MEGA_N (p : Trash) (hsc : p.size_class = .MEGA)
    (hpt : p.plastic_type = .N) :
    exampleFinish argsEx p =
      ⟨p.x, p.y, p.size, exMassTarget * (p.size ^ 3 / exImpliedTotalVolume),
       826.05, p.size_class, p.plastic_type⟩ := by
  rw [exampleFinish, hsc, hpt]
  simp only [setMass, setDensity, mean_plastic_concentration, size_ranges, argsEx]
  rw [Trash.mk.injEq]
  refine ⟨rfl, rfl, rfl, ?_, ?_, hsc, hpt⟩
  · have e1 : Real.logb 10 (((50 : ℚ) : ℝ) / 100) = Real.logb 10 (1/2 : ℝ) := by
      norm_num
    have e2 : Real.logb 10 (((200 : ℚ) : ℝ) / 100) = Real.logb 10 (2 : ℝ) := by
      norm_num
    rw [e1, e2, exImpliedTotalVolume, exAvgVolPerPiece, exMassTarget, exNTarget]
    ring
  · norm_num [avg_density, plastic_materials, material_densities]

/-- The seven example pieces, fully evaluated. -/
lemma examplePieces_argsEx :
    examplePieces argsEx = exampleProtos.map (fun p =>
      ⟨p.x, p.y, p.size, exMassTarget * (p.size ^ 3 / exImpliedTotalVolume),
       826.05, p.size_class, p.plastic_type⟩) := by
  rw [examplePieces]
  apply List.map_congr_left
  intro p hp
  have hmem : p ∈ exampleProtos := hp
  rw [exampleProtos] at hmem
  simp only [List.mem_cons, List.not_mem_nil, or_false] at hmem
  rcases hmem with rfl | rfl | rfl | rfl | rfl | rfl | rfl <;>
    exact exampleFinish_MEGA_N _ rfl rfl

/-- C3 (amended): with `width=100, height=100, exclusion (0,0)/(0,0),
centered=false, useExample=true`, the call returns — for every randomness
source, every fuel bound and every size-class list — exactly the seven MEGA/N
particles at positions (100,16), (110,100), (90,100), (115,130), (88,170),
(115,210), (100,240) with sizes 0.75, 0.75, 0.75, 1.00, 0.75, 2.50, 0.50 m,
density `826.05` (the weight-sum of the MEGA/N material table), and
`mass = totalMassTarget * size³ / impliedTotalVolume` where
`impliedTotalVolume = avg_vol_per_piece * nTarget` is the code's closed form
`((10³)^maxLog - (10³)^minLog) / ((maxLog-minLog) * log10(10³))` times the
MEGA/N count target at the default scale (this closed form equals `ln 10`
times the integral of the log-uniform size distribution, not the integral
itself). -/
theorem C3_example_scenario :
    ∃ ts : List Trash,
      (∀ (ρ : RStream) (fuel : ℕ) (classes : List SizeClass),
        generate_trash argsEx classes true ρ fuel = .ok (ts, ⟨0, 0⟩)) ∧
      ts.map (fun t => (t.x, t.y)) =
        [(100, 16), (110, 100), (90, 100), (115, 130), (88, 170), (115, 210),
         (100, 240)] ∧
      ts.map Trash.size = [3/4, 3/4, 3/4, 1, 3/4, 5/2, 1/2] ∧
      ∀ t ∈ ts, t.size_class = .MEGA ∧ t.plastic_type = .N ∧
        t.density = 826.05 ∧
        t.mass = exMassTarget * (t.size ^ 3 / exImpliedTotalVolume) := by
  refine ⟨examplePieces argsEx, ?_, ?_, ?_, ?_⟩
  · intro ρ fuel classes
    rw [generate_trash, if_pos rfl]
  · rw [examplePieces_argsEx]
    simp only [exampleProtos, List.map_cons, List.map_nil]
    norm_num
  · rw [examplePieces_argsEx]
    simp only [exampleProtos, List.map_cons, List.map_nil]
  · intro t ht
    rw [examplePieces_argsEx] at ht
    rw [List.mem_map] at ht
    obtain ⟨p, hp, rfl⟩ := ht
    rw [exampleProtos] at hp
    simp only [List.mem_cons, List.not_mem_nil, or_false] at hp
    rcases hp with rfl | rfl | rfl | rfl | rfl | rfl | rfl <;>
      exact ⟨rfl, rfl, rfl, rfl⟩

/-- C3 counterexample: the first example particle's mass does not equal
`totalMassTarget * size³ / impliedTotalVolume` when the implied total volume
is computed from the actual integral of the log-uniform size distribution:
the code divides its antiderivative by `log10(10³) = 3` rather than
`ln(10³) = 3·ln 10`, making its implied volume `ln 10` times smaller than the
claim's integral-based one, hence every mass strictly larger. -/
theorem C3_counterexample :
    ∃ (ts : List Trash) (t : Trash),
      generate_trash argsEx [.MEGA] true zeroStream 1 = .ok (ts, ⟨0, 0⟩) ∧
      ts.head? = some t ∧
      t.mass ≠ exMassTarget * (t.size ^ 3 / (logUniformMeanVol .MEGA * exNTarget)) := by
  refine ⟨examplePieces argsEx,
    ⟨100 + 0, 16, 3/4, exMassTarget * ((3/4 : ℝ) ^ 3 / exImpliedTotalVolume),
     826.05, .MEGA, .N⟩,
    by rw [generate_trash, if_pos rfl], ?_, ?_⟩
  · rw [examplePieces_argsEx, exampleProtos]
    simp only [List.map_cons, List.head?_cons]
  · have hVt := logUniformMeanVol_MEGA_pos
    have hN := exNTarget_pos
    have hM := exMassTarget_pos
    have hlog := log_ten_gt_one
    show exMassTarget * ((3/4 : ℝ) ^ 3 / exImpliedTotalVolume) ≠ _
    apply ne_of_lt
    apply mul_lt_mul_of_pos_left ?_ hM
    apply div_lt_div_of_pos_left (by norm_num) (mul_pos hVt hN)
    rw [exImpliedTotalVolume, exAvgVolPerPiece_vs_integral]
    nlinarith [mul_pos hVt hN, mul_pos (sub_pos.mpr hlog) (mul_pos hVt hN)]

end TrashPlacement
